import Mathlib

/-!
Shallow embedding of the go-healthz check-registry and status-aggregation
engine (checker.go, check.go, scoped.go, warnings.go, remote.go), together
with theorems checking the natural-language specification against it.

Modelling conventions:
* Go `error` values are `Option GoErr` (`none` is the nil error); the
  concrete error types of the library are the constructors of `GoErr`.
* Go `map[string]string` is an association list with Go-map insertion
  semantics (update the existing key in place, otherwise append);
  iteration order of a Go map is unspecified, the list order stands for
  one such order.
* A Go panic is modelled by `Option`/`Except` results (`none` / `.error`).
* `time.Duration` is a `Nat` of nanoseconds; waiting on a timer is
  modelled by comparing the elapsed time against the timer duration.
-/

namespace Healthz

/-- Errors of the library: `errors.New`/`fmt.Errorf` values (`basic`),
the `Warning` marker type of warnings.go (`warning`), a `fmt.Errorf`
`%w`-wrapping error carrying its formatted message and the wrapped error
(`wrapped`), the `Expired` value of check.go (`expired`, expiry in
nanoseconds), and `ScopedMultiError` of scoped.go (`scoped`; its values
are Go `error`s, hence possibly nil). -/
inductive GoErr : Type where
  | basic (msg : String)
  | warning (msg : String)
  | wrapped (msg : String) (inner : GoErr)
  | expired (expiry : Nat)
  | scopedErr (entries : List (String × Option GoErr))

/-- Translation of warnings.go `IsWarning`: a plain one-level type
assertion `_, ok := err.(Warning)`; a nil error is not a `Warning`. -/
def IsWarning : Option GoErr → Bool
  | some (.warning _) => true
  | _ => false

/-- Translation of scoped.go `IsScopedMultiError`: type assertion, no
unwrapping. -/
def IsScopedMultiError : Option GoErr → Bool
  | some (.scopedErr _) => true
  | _ => false

/-- Modelled from the spec: warning detection "must see through arbitrary
wrapping layers (unwrap chain), but a scoped multi-error is not itself
unwrapped for warning-detection".  This is what src/warnings_test.go
asserts of `IsWarning` as well. -/
def IsWarningSpec : Option GoErr → Bool
  | some (.warning _) => true
  | some (.wrapped _ inner) => IsWarningSpec (some inner)
  | _ => false

/-- Loop of the Go `fmtFrac` helper of `time.Duration.String`: walk the
`prec` least significant digits of `v` from the least significant up,
suppressing digits until the first non-zero one, prepending the rest. -/
def fmtFracAux : Nat → Nat → String → Bool → String × Nat
  | v, 0, digits, pr => ((if pr then "." ++ digits else ""), v)
  | v, i + 1, digits, pr =>
    let digit := v % 10
    let pr := pr || digit != 0
    let digits := if pr then toString digit ++ digits else digits
    fmtFracAux (v / 10) i digits pr

/-- Go's `fmtFrac`: print the `prec` least significant digits of `v` as
a fraction, omitting trailing zeros (and the dot when all are zero);
returns the fraction text and `v / 10 ^ prec`. -/
def fmtFracGo (v prec : Nat) : String × Nat :=
  fmtFracAux v prec "" false

/-- Translation of Go's `time.Duration.String` for non-negative
durations (nanoseconds): sub-second durations use ns/µs/ms units, larger
ones seconds with optional minutes and hours. -/
def fmtDuration (d : Nat) : String :=
  if d = 0 then "0s"
  else if d < 1000000000 then
    if d < 1000 then toString d ++ "ns"
    else if d < 1000000 then
      let (frac, v) := fmtFracGo d 3
      toString v ++ frac ++ "µs"
    else
      let (frac, v) := fmtFracGo d 6
      toString v ++ frac ++ "ms"
  else
    let (frac, v) := fmtFracGo d 9
    let s := toString (v % 60) ++ frac ++ "s"
    let m := v / 60
    if m = 0 then s
    else
      let s := toString (m % 60) ++ "m" ++ s
      let h := m / 60
      if h = 0 then s else toString h ++ "h" ++ s

/-- Insertion step for sorting the sub-keys of a `ScopedMultiError`
lexicographically (scoped.go uses `sort.Strings` on the keys). -/
def insertSorted (p : String × String) : List (String × String) → List (String × String)
  | [] => [p]
  | q :: rest => if p.1 < q.1 then p :: q :: rest else q :: insertSorted p rest

/-- Sort rendered (key, message) pairs by key, as `sort.Strings` does in
`ScopedMultiError.Error`. -/
def sortPairs : List (String × String) → List (String × String)
  | [] => []
  | p :: rest => insertSorted p (sortPairs rest)

mutual

/-- Translation of the `Error()` methods: `basic`/`warning`/`wrapped`
errors carry their message, `Expired.Error` formats
"status expired after <expiry>", and `ScopedMultiError.Error` renders
"multiple errors:" followed by one "\n<key>: <value>" line per entry in
sorted key order (`%v` of a nil error prints "<nil>"). -/
def errError : GoErr → String
  | .basic m => m
  | .warning m => m
  | .wrapped m _ => m
  | .expired d => "status expired after " ++ fmtDuration d
  | .scopedErr es =>
      (sortPairs (renderEntries es)).foldl
        (fun acc kv => acc ++ "\n" ++ kv.1 ++ ": " ++ kv.2) "multiple errors:"

/-- Render each entry of a `ScopedMultiError` to its `%v` text. -/
def renderEntries : List (String × Option GoErr) → List (String × String)
  | [] => []
  | (k, none) :: rest => (k, "<nil>") :: renderEntries rest
  | (k, some e) :: rest => (k, errError e) :: renderEntries rest

end

/-- A Go `map[string]string`, as an association list in one iteration
order. -/
abbrev GoMap := List (String × String)

/-- Go map assignment `m[k] = v`: update the key in place when present,
otherwise add the entry. -/
def goInsert (m : GoMap) (k v : String) : GoMap :=
  if m.any (fun kv => kv.1 == k) then
    m.map (fun kv => if kv.1 == k then (k, v) else kv)
  else m ++ [(k, v)]

mutual

/-- Translation of checker.go `mapError`: a `ScopedMultiError` is
flattened recursively with `name+"/"+key` prefixes; any other non-nil
error is classified by `IsWarning` and its `Error()` text inserted at
`name`.  A nil error reaches `err.Error()` (nil is neither a
`ScopedMultiError` nor a `Warning`), which panics in Go: the result is
`none`. -/
def mapError (name : String) (err : Option GoErr) (failures warnings : GoMap) :
    Option (GoMap × GoMap) :=
  match err with
  | none => none
  | some (.scopedErr entries) => mapErrorList name entries failures warnings
  | some e =>
      if IsWarning (some e) then some (failures, goInsert warnings name (errError e))
      else some (goInsert failures name (errError e), warnings)

/-- The `for key, subErr := range sme` loop of `mapError`, in one
iteration order; a panic (from a nil sub-error) aborts the whole walk. -/
def mapErrorList (name : String) (es : List (String × Option GoErr))
    (failures warnings : GoMap) : Option (GoMap × GoMap) :=
  match es with
  | [] => some (failures, warnings)
  | (key, sub) :: rest =>
      match mapError (name ++ "/" ++ key) sub failures warnings with
      | none => none
      | some fw => mapErrorList name rest fw.1 fw.2

end

mutual

/-- Modelled from the spec: "given `(prefix, err)`, if `err` is nil,
contribute nothing; if it is a scoped multi-error, recurse once per
sub-key with `prefix/subKey`; otherwise classify via the warning marker
and insert into `failures[prefix]` or `warnings[prefix]` using
`err.Error()` as the message."  The warning marker is the spec's
unwrap-aware detection `IsWarningSpec` ("detection must see through
arbitrary wrapping layers"). -/
def flattenSpec (pfx : String) (err : Option GoErr) (failures warnings : GoMap) :
    GoMap × GoMap :=
  match err with
  | none => (failures, warnings)
  | some (.scopedErr entries) => flattenSpecList pfx entries failures warnings
  | some e =>
      if IsWarningSpec (some e) then (failures, goInsert warnings pfx (errError e))
      else (goInsert failures pfx (errError e), warnings)

/-- One recursion of `flattenSpec` per sub-key. -/
def flattenSpecList (pfx : String) (es : List (String × Option GoErr))
    (failures warnings : GoMap) : GoMap × GoMap :=
  match es with
  | [] => (failures, warnings)
  | (key, sub) :: rest =>
      let fw := flattenSpec (pfx ++ "/" ++ key) sub failures warnings
      flattenSpecList pfx rest fw.1 fw.2

end

mutual

/-- True when the code's flattening and the spec's algorithm agree on
this error, that is, on the two points where they differ: no nil error
is stored inside any (possibly nested) scoped container (the code would
panic on it), and at every leaf the code's one-level `IsWarning` agrees
with the spec's unwrap-aware warning marker (by the C3 bug they
disagree exactly on generically wrapped warnings, which the code files
under failures). -/
def flattenAgrees : GoErr → Bool
  | .scopedErr es => flattenAgreesList es
  | e => IsWarning (some e) == IsWarningSpec (some e)

/-- List form of `flattenAgrees`; a nil entry is a disagreement (the
code panics on it). -/
def flattenAgreesList : List (String × Option GoErr) → Bool
  | [] => true
  | (_, none) :: _ => false
  | (_, some e) :: rest => flattenAgrees e && flattenAgreesList rest

end

/-- Status label constants of healthz.go. -/
def StatusOK : String := "OK"

/-- Label returned when any registered check fails. -/
def StatusUnavailable : String := "Unavailable"

/-- Label returned when some check warns and none fails. -/
def StatusWarning : String := "Warning"

/-- The fields of the `Status` struct that the aggregation computes
(`Time`, `Since`, `Runtime` and `Metadata` are environment snapshot data
out of the scope of these claims). -/
structure Status where
  OK : Bool
  HasWarnings : Bool
  label : String
  Failures : GoMap
  Warnings : GoMap
deriving Repr, DecidableEq

/-- The `for name, check := range c.checks` loop of `Checker.Status`: a
check whose current error is nil contributes nothing (the `err != nil`
guard); otherwise `mapError` runs; a panic aborts the loop. -/
def statusFold : List (String × Option GoErr) → GoMap → GoMap → Option (GoMap × GoMap)
  | [], failures, warnings => some (failures, warnings)
  | (name, err) :: rest, failures, warnings =>
      match err with
      | none => statusFold rest failures warnings
      | some e =>
          match mapError name (some e) failures warnings with
          | none => none
          | some fw => statusFold rest fw.1 fw.2

/-- Translation of `Checker.Status` on a registry snapshot (each check's
name paired with its current error value): build the failure and warning
maps, then derive the `OK`, `HasWarnings` and status label fields. -/
def checkerStatus (checks : List (String × Option GoErr)) : Option Status :=
  match statusFold checks [] [] with
  | none => none
  | some fw =>
      some { OK := fw.1.length == 0
             HasWarnings := decide (fw.2.length > 0)
             label := if fw.1.length > 0 then StatusUnavailable
                      else if fw.2.length > 0 then StatusWarning
                      else StatusOK
             Failures := fw.1
             Warnings := fw.2 }

/-- A check's evaluation function (`CheckFunc`), a closure returning a
Go error. -/
abbrev CheckFunc := Unit → Option GoErr

/-- The `check` struct of check.go (the mutex is implicit; the 1-buffered
`stopch` channel is modelled by whether a stop signal is queued). -/
structure Check where
  static : Bool
  period : Nat
  expiry : Nat
  fn : Option CheckFunc
  err : Option GoErr
  stopPending : Bool

/-- Translation of `check.Close`: a non-blocking send on the 1-buffered
stop channel — if a signal is already queued, the `default` branch does
nothing.  The function is total: no branch blocks or panics, and the
stored error is untouched. -/
def closeCheck (c : Check) : Check :=
  if c.stopPending then c else { c with stopPending := true }

/-- `n` successive calls of `check.Close` on the same entry. -/
def closeIter : Nat → Check → Check
  | 0, c => c
  | n + 1, c => closeIter n (closeCheck c)

/-- Stored error of a static check `elapsed` nanoseconds after
`Set(name, err0, expiry)`, assuming it is neither replaced nor stopped:
translation of `check.doStatic` — with expiry 0 the evaluation returns
at once and the value never changes; otherwise the expiry timer firing
replaces the value with `Expired{expiry}`. -/
def staticErrAt (expiry : Nat) (err0 : Option GoErr) (elapsed : Nat) : Option GoErr :=
  if expiry = 0 then err0
  else if elapsed < expiry then err0
  else some (.expired expiry)

/-- Default check period of healthz.go: one second. -/
def DefaultCheckPeriod : Nat := 1000000000

/-- Registry and metadata state of the `Checker` struct (metadata values
are opaque `interface{}` data; a `String` stands in for them). -/
structure CheckerState where
  metadata : List (String × String)
  checks : List (String × Check)

/-- Go map assignment on the check registry. -/
def goUpdateCheck (m : List (String × Check)) (k : String) (v : Check) :
    List (String × Check) :=
  if m.any (fun kv => kv.1 == k) then
    m.map (fun kv => if kv.1 == k then (k, v) else kv)
  else m ++ [(k, v)]

/-- The fresh entry built by `Checker.Register` (periodic mode, with the
sentinel "pending" error and an empty 1-buffered stop channel). -/
def newPeriodicCheck (period : Nat) (f : CheckFunc) : Check :=
  { static := false, period := period, expiry := 0, fn := some f
    err := some (.basic "pending"), stopPending := false }

/-- Translation of `Checker.Register`.  The nil-function check is the
first statement of the body, before the lock is taken and before any
registry access, so the Go `panic("nil CheckFunc")` is modelled as
`.error` carrying the message together with the (unchanged) checker
state at the instant of the panic.  Otherwise a zero period is replaced
by the default, any existing entry under the name is closed and
replaced, and the new entry stored. -/
def register (c : CheckerState) (name : String) (period : Nat) (fn : Option CheckFunc) :
    Except (String × CheckerState) CheckerState :=
  match fn with
  | none => .error ("nil CheckFunc", c)
  | some f =>
      let p := if period = 0 then DefaultCheckPeriod else period
      .ok { c with checks := goUpdateCheck c.checks name (newPeriodicCheck p f) }

/-- The `RemoteOptions` fields that steer response classification (the
client and timeout only configure the out-of-scope HTTP transport). -/
structure RemoteOptions where
  asWarnings : Bool
  warn404 : Bool

/-- Failures and warnings maps decoded from a remote body
(`json.Unmarshal(body, &st)` into the `Status` struct; the JSON codec is
an out-of-scope collaborator, so the decode outcome accompanies the raw
body in `FetchResult`). -/
structure RemoteStatus where
  failures : GoMap
  warnings : GoMap

/-- Outcome of the HTTP fetch performed by a remote check's evaluation
function: either a transport-level error (from `client.Do` or
`io.ReadAll`, carrying the error text), or a response with its status
code, raw body, and the result of decoding the body as a `Status`. -/
inductive FetchResult : Type where
  | transportError (msg : String)
  | response (statusCode : Nat) (body : String) (parsed : Option RemoteStatus)

/-- The `errorf` function chosen by `Checker.RegisterRemote` before
registering: `fmt.Errorf` when `opt` is nil, and `Warnf` whenever `opt`
is non-nil (the source switches it inside `if opt != nil`, not under
`opt.AsWarnings`). -/
def remoteErrorf (opt : Option RemoteOptions) (msg : String) : GoErr :=
  match opt with
  | none => .basic msg
  | some _ => .warning msg

/-- The `asWarnings` flag computed by `RegisterRemote`: false for nil
options, otherwise `opt.AsWarnings`. -/
def optAsWarnings : Option RemoteOptions → Bool
  | none => false
  | some o => o.asWarnings

/-- Go map assignment on a `ScopedMultiError` under construction. -/
def goInsertErr (m : List (String × Option GoErr)) (k : String) (v : GoErr) :
    List (String × Option GoErr) :=
  if m.any (fun kv => kv.1 == k) then
    m.map (fun kv => if kv.1 == k then (k, some v) else kv)
  else m ++ [(k, some v)]

/-- The `ScopedMultiError` built from a compatible remote body: each
remote failure becomes a sub-error (downgraded to a warning when
`AsWarnings` was set), each remote warning always a warning. -/
def buildRemoteMulti (asW : Bool) (st : RemoteStatus) : List (String × Option GoErr) :=
  let me := st.failures.foldl
    (fun me kv => goInsertErr me kv.1 (if asW then .warning kv.2 else .basic kv.2)) []
  st.warnings.foldl (fun me kv => goInsertErr me kv.1 (.warning kv.2)) me

/-- Translation of the evaluation closure registered by
`Checker.RegisterRemote`: transport errors are returned verbatim;
status codes outside the 2xx and 5xx ranges are rejected (404 with
`Warn404` as a fixed warning, anything else through `errorf`); an
undecodable body falls back on the status code; a decodable body with an
error code but no failures is treated as incompatible; otherwise the
remote failures and warnings are re-emitted as a `ScopedMultiError`,
or nil if that map is empty. -/
def remoteCheckFn (opt : Option RemoteOptions) (r : FetchResult) : Option GoErr :=
  match r with
  | .transportError msg => some (.basic msg)
  | .response sc body parsed =>
      if sc < 200 ∨ (300 ≤ sc ∧ sc < 500) ∨ 600 ≤ sc then
        if sc = 404 ∧ (match opt with | some o => o.warn404 | none => false) = true then
          some (.warning "remote healthz endpoint does not exist")
        else
          some (remoteErrorf opt ("unexpected healthz http status code: " ++ toString sc))
      else
        let remoteOK := sc < 300
        match parsed with
        | none =>
            if remoteOK then none
            else some (remoteErrorf opt
              ("remote http code " ++ toString sc ++ ", contents:\n" ++ body))
        | some st =>
            if ¬remoteOK ∧ st.failures.length = 0 then
              some (remoteErrorf opt
                ("remote http code " ++ toString sc ++ ", contents:\n" ++ body))
            else
              let me := buildRemoteMulti (optAsWarnings opt) st
              if me.length = 0 then none else some (.scopedErr me)

/-! Theorems -/

mutual

/-- On an error with no nil stored inside any of its scoped containers
and no wrapped-warning leaf, `mapError` computes exactly the spec's
flattening algorithm. -/
theorem mapError_matches_spec (pfx : String) (e : GoErr) (failures warnings : GoMap)
    (h : flattenAgrees e = true) :
    mapError pfx (some e) failures warnings
      = some (flattenSpec pfx (some e) failures warnings) := by
  cases e with
  | basic m => simp [mapError, flattenSpec, IsWarning, IsWarningSpec]
  | warning m => simp [mapError, flattenSpec, IsWarning, IsWarningSpec]
  | wrapped m i =>
      have hw : IsWarningSpec (some (GoErr.wrapped m i)) = false := by
        simp only [flattenAgrees, IsWarning, beq_iff_eq] at h
        exact h.symm
      simp [mapError, flattenSpec, IsWarning, hw]
  | expired d => simp [mapError, flattenSpec, IsWarning, IsWarningSpec]
  | scopedErr es =>
      rw [mapError, flattenSpec]
      exact mapErrorList_matches_spec pfx es failures warnings (by rwa [flattenAgrees] at h)

/-- List form of `mapError_matches_spec`, one recursion per sub-key. -/
theorem mapErrorList_matches_spec (pfx : String) (es : List (String × Option GoErr))
    (failures warnings : GoMap) (h : flattenAgreesList es = true) :
    mapErrorList pfx es failures warnings
      = some (flattenSpecList pfx es failures warnings) := by
  match es with
  | [] => rw [mapErrorList, flattenSpecList]
  | (k, none) :: rest => rw [flattenAgreesList] at h; cases h
  | (k, some e) :: rest =>
      rw [flattenAgreesList, Bool.and_eq_true] at h
      rw [mapErrorList, flattenSpecList,
        mapError_matches_spec (pfx ++ "/" ++ k) e failures warnings h.1]
      exact mapErrorList_matches_spec pfx rest _ _ h.2

end

/-- C1 counterexample: `mapError` does not match the spec's flattening
algorithm.  First divergence: on a scoped multi-error holding a nil
sub-error, the nil reaches `err.Error()` and panics (`none`), where the
spec algorithm contributes nothing.  Second divergence: on the nil-free
leaf `fmt.Errorf("ctx: %w", Warn("x"))` the code's one-level marker
test inserts the message into failures, where the spec's unwrap-aware
warning marker sends it to warnings. -/
theorem C1_counterexample :
    (mapError "multi" (some (.scopedErr [("k", none)])) [] [] = none ∧
     flattenSpec "multi" (some (.scopedErr [("k", none)])) [] [] = ([], []) ∧
     mapError "multi" (some (.scopedErr [("k", none)])) [] []
       ≠ some (flattenSpec "multi" (some (.scopedErr [("k", none)])) [] [])) ∧
    (mapError "c" (some (.wrapped "ctx: x" (.warning "x"))) [] []
       = some ([("c", "ctx: x")], []) ∧
     flattenSpec "c" (some (.wrapped "ctx: x" (.warning "x"))) [] []
       = ([], [("c", "ctx: x")]) ∧
     mapError "c" (some (.wrapped "ctx: x" (.warning "x"))) [] []
       ≠ some (flattenSpec "c" (some (.wrapped "ctx: x" (.warning "x"))) [] [])) := by
  have h1 : mapError "multi" (some (.scopedErr [("k", none)])) [] [] = none := by
    rw [mapError, mapErrorList, mapError]
  have h2 : mapError "c" (some (.wrapped "ctx: x" (.warning "x"))) [] []
      = some ([("c", "ctx: x")], []) := by
    simp [mapError, IsWarning, errError, goInsert]
  have h3 : flattenSpec "c" (some (.wrapped "ctx: x" (.warning "x"))) [] []
      = ([], [("c", "ctx: x")]) := by
    simp [flattenSpec, IsWarningSpec, errError, goInsert]
  refine ⟨⟨h1, by rw [flattenSpec, flattenSpecList, flattenSpec, flattenSpecList],
    by simp [h1]⟩, h2, h3, by simp [h2, h3]⟩

/-- C1 amended: the flattening matches the spec's recursive algorithm
with the nil clause restricted to the top level and the warning marker
read as the code's one-level test — `Checker.Status` skips a nil check
result before calling `mapError`, and for every error on which the two
differences are absent (no nil sub-error inside any scoped container,
and no leaf that is a generically wrapped warning) the code flattens
exactly as the spec's algorithm does (scoped multi-errors recurse per
sub-key with `prefix/subKey` to unbounded depth, anything else is
classified and inserted as `err.Error()` at the prefix).  A nil nested
inside a scoped multi-error instead panics, and a wrapped-warning leaf
is inserted into failures (the C3 bug) where the spec's unwrap-aware
marker says warnings.  The concrete multi-error of the claim flattens
exactly to `failures["multi/e1"]`, `failures["multi/e2"]` and
`warnings["multi/w1"]`. -/
theorem C1_flatten_amended (pfx name : String) (e : GoErr) (failures warnings : GoMap)
    (rest : List (String × Option GoErr)) (m1 m2 m3 : String) :
    (flattenAgrees e = true →
      mapError pfx (some e) failures warnings
        = some (flattenSpec pfx (some e) failures warnings)) ∧
    statusFold ((name, none) :: rest) failures warnings
      = statusFold rest failures warnings ∧
    mapError name (some (.wrapped m3 (.warning "x"))) failures warnings
      = some (goInsert failures name m3, warnings) ∧
    mapError "multi" (some (.scopedErr [("e1", some (.basic m1)), ("e2", some (.basic m2)),
        ("w1", some (.warning "x"))])) [] []
      = some ([("multi/e1", m1), ("multi/e2", m2)], [("multi/w1", "x")]) := by
  refine ⟨mapError_matches_spec pfx e failures warnings, by rw [statusFold], ?_, ?_⟩
  · simp [mapError, IsWarning, errError]
  · simp [mapError, mapErrorList, IsWarning, errError, goInsert]

/-- Witness for C1 at the claim's concrete scoped multi-error. -/
theorem C1_flatten_amended_witness :
    mapError "p" (some (.scopedErr [("e1", some (.basic "err1")), ("w1", some (.warning "x"))]))
        [] []
      = some (flattenSpec "p"
          (some (.scopedErr [("e1", some (.basic "err1")), ("w1", some (.warning "x"))])) [] []) ∧
    mapError "multi" (some (.scopedErr [("e1", some (.basic "err1")), ("e2", some (.basic "err2")),
        ("w1", some (.warning "x"))])) [] []
      = some ([("multi/e1", "err1"), ("multi/e2", "err2")], [("multi/w1", "x")]) := by
  have h := C1_flatten_amended "p" "n"
    (.scopedErr [("e1", some (.basic "err1")), ("w1", some (.warning "x"))]) [] [] []
    "err1" "err2" "m"
  refine ⟨h.1 (by simp [flattenAgrees, flattenAgreesList, IsWarning, IsWarningSpec]), ?_⟩
  exact (C1_flatten_amended "p" "n"
    (.scopedErr [("e1", some (.basic "err1")), ("w1", some (.warning "x"))]) [] [] []
    "err1" "err2" "m").2.2.2

/-- C2: every Status value returned by `Checker.Status()` is
self-consistent: `OK` equals (number of failures == 0), `HasWarnings`
equals (number of warnings > 0), and the status label is "Unavailable"
if `Failures` is non-empty, else "Warning" if `Warnings` is non-empty,
else "OK" — for every registry state and every set of check results. -/
theorem C2_status_self_consistent (checks : List (String × Option GoErr)) (st : Status)
    (h : checkerStatus checks = some st) :
    st.OK = (st.Failures.length == 0) ∧
    st.HasWarnings = decide (st.Warnings.length > 0) ∧
    st.label = (if st.Failures ≠ [] then StatusUnavailable
                else if st.Warnings ≠ [] then StatusWarning else StatusOK) := by
  unfold checkerStatus at h
  cases hs : statusFold checks [] [] with
  | none => rw [hs] at h; cases h
  | some fw =>
      obtain ⟨f, w⟩ := fw
      rw [hs] at h
      cases h
      refine ⟨rfl, rfl, ?_⟩
      simp only []
      rcases f with _ | ⟨p, f'⟩ <;> rcases w with _ | ⟨q, w'⟩ <;> simp

/-- Witness for C2 at a concrete registry holding one failing and one
warning check. -/
theorem C2_status_self_consistent_witness :
    (Status.mk false true StatusUnavailable [("a_check", "bad thing happened")]
        [("a_warning", "test warning")]).OK
      = ((Status.mk false true StatusUnavailable [("a_check", "bad thing happened")]
        [("a_warning", "test warning")]).Failures.length == 0) ∧
    (Status.mk false true StatusUnavailable [("a_check", "bad thing happened")]
        [("a_warning", "test warning")]).HasWarnings
      = decide ((Status.mk false true StatusUnavailable [("a_check", "bad thing happened")]
        [("a_warning", "test warning")]).Warnings.length > 0) ∧
    (Status.mk false true StatusUnavailable [("a_check", "bad thing happened")]
        [("a_warning", "test warning")]).label
      = (if (Status.mk false true StatusUnavailable [("a_check", "bad thing happened")]
            [("a_warning", "test warning")]).Failures ≠ [] then StatusUnavailable
         else if (Status.mk false true StatusUnavailable [("a_check", "bad thing happened")]
            [("a_warning", "test warning")]).Warnings ≠ [] then StatusWarning
         else StatusOK) :=
  C2_status_self_consistent
    [("a_check", some (.basic "bad thing happened")), ("a_warning", some (.warning "test warning"))]
    (Status.mk false true StatusUnavailable [("a_check", "bad thing happened")]
      [("a_warning", "test warning")])
    (by simp [checkerStatus, statusFold, mapError, IsWarning, errError, goInsert,
      StatusUnavailable])

/-- C3: the claim (and the repository's own test warnings_test.go, which
asserts `IsWarning(fmt.Errorf("wrapped: %w", Warn("foo")))`) requires
warning detection to see through generic wrapping layers, but the
`IsWarning` in warnings.go is a plain one-level type assertion: on the
wrapped warning it returns false where the spec-modelled unwrap-aware
detection returns true.  Direct `Warn` values and plain errors are
classified as the claim states. -/
theorem C3_is_warning_code_bug :
    IsWarning (some (.wrapped "wrapped: foo" (.warning "foo"))) = false ∧
    IsWarningSpec (some (.wrapped "wrapped: foo" (.warning "foo"))) = true ∧
    IsWarning (some (.warning "foo")) = true ∧
    IsWarning (some (.basic "a plain error")) = false ∧
    IsWarning (some (.scopedErr [("w", some (.warning "x"))])) = false := by
  refine ⟨rfl, ?_, rfl, rfl, rfl⟩
  simp [IsWarningSpec]

/-- C5: code bug — with any non-nil `RemoteOptions`, even one with
`AsWarnings` unset, a rejected status code produces a `Warnf` warning
(the source switches `errorf` to `Warnf` under `if opt != nil`), while
the claim and the `RemoteOptions` field documentation say it is a
failure unless `AsWarnings` is set.  With nil options the failure path
behaves as claimed. -/
theorem C5_status_code_code_bug :
    remoteCheckFn (some { asWarnings := false, warn404 := false }) (.response 400 "" none)
      = some (.warning "unexpected healthz http status code: 400") ∧
    IsWarning (remoteCheckFn (some { asWarnings := false, warn404 := false })
      (.response 400 "" none)) = true ∧
    remoteCheckFn none (.response 400 "" none)
      = some (.basic "unexpected healthz http status code: 400") ∧
    IsWarning (remoteCheckFn none (.response 400 "" none)) = false :=
  ⟨rfl, rfl, rfl, rfl⟩

/-- Go map insertion of a fresh key appends the entry. -/
theorem goInsertErr_of_notMem (m : List (String × Option GoErr)) (k : String) (v : GoErr)
    (h : k ∉ m.map Prod.fst) : goInsertErr m k v = m ++ [(k, some v)] := by
  unfold goInsertErr
  rw [if_neg]
  intro hc
  rw [List.any_eq_true] at hc
  obtain ⟨kv, hmem, hbeq⟩ := hc
  exact h (List.mem_map.mpr ⟨kv, hmem, by simpa using hbeq⟩)

/-- Inserting a key-distinct batch of entries into a Go map appends them
in iteration order. -/
theorem foldInsertErr_append (f : String × String → GoErr) (L : List (String × String))
    (acc : List (String × Option GoErr))
    (hnd : (L.map Prod.fst).Nodup)
    (hdisj : ∀ k ∈ L.map Prod.fst, k ∉ acc.map Prod.fst) :
    L.foldl (fun me kv => goInsertErr me kv.1 (f kv)) acc
      = acc ++ L.map (fun kv => (kv.1, some (f kv))) := by
  induction L generalizing acc with
  | nil => simp
  | cons p rest ih =>
      obtain ⟨k, v⟩ := p
      simp only [List.map_cons, List.nodup_cons] at hnd
      simp only [List.foldl_cons]
      rw [goInsertErr_of_notMem acc k (f (k, v)) (hdisj k (by simp))]
      rw [ih (acc ++ [(k, some (f (k, v)))]) hnd.2]
      · simp
      · intro k' hk'
        simp only [List.map_append, List.mem_append, List.map_cons, List.map_nil,
          List.mem_singleton, not_or]
        refine ⟨hdisj k' (by simp [hk']), ?_⟩
        intro hkk
        exact hnd.1 (by simpa [hkk] using hk')

/-- The failures fold of `buildRemoteMulti` on key-distinct input. -/
theorem foldFailures_append (asW : Bool) (L : List (String × String))
    (acc : List (String × Option GoErr))
    (hnd : (L.map Prod.fst).Nodup)
    (hdisj : ∀ k ∈ L.map Prod.fst, k ∉ acc.map Prod.fst) :
    L.foldl (fun me kv =>
        goInsertErr me kv.1 (if asW then .warning kv.2 else .basic kv.2)) acc
      = acc ++ L.map (fun kv =>
          (kv.1, some (if asW then GoErr.warning kv.2 else GoErr.basic kv.2))) :=
  foldInsertErr_append (fun kv => if asW then .warning kv.2 else .basic kv.2) L acc hnd hdisj

/-- The warnings fold of `buildRemoteMulti` on key-distinct input. -/
theorem foldWarnings_append (L : List (String × String))
    (acc : List (String × Option GoErr))
    (hnd : (L.map Prod.fst).Nodup)
    (hdisj : ∀ k ∈ L.map Prod.fst, k ∉ acc.map Prod.fst) :
    L.foldl (fun me kv => goInsertErr me kv.1 (.warning kv.2)) acc
      = acc ++ L.map (fun kv => (kv.1, some (GoErr.warning kv.2))) :=
  foldInsertErr_append (fun kv => .warning kv.2) L acc hnd hdisj

/-- With key-distinct failure and warning maps, `buildRemoteMulti` is
the two maps re-emitted side by side under their own keys. -/
theorem buildRemoteMulti_eq (asW : Bool) (st : RemoteStatus)
    (hf : (st.failures.map Prod.fst).Nodup)
    (hw : (st.warnings.map Prod.fst).Nodup)
    (hdisj : ∀ k ∈ st.warnings.map Prod.fst, k ∉ st.failures.map Prod.fst) :
    buildRemoteMulti asW st
      = st.failures.map (fun kv =>
          (kv.1, some (if asW then GoErr.warning kv.2 else GoErr.basic kv.2)))
        ++ st.warnings.map (fun kv => (kv.1, some (GoErr.warning kv.2))) := by
  unfold buildRemoteMulti
  rw [foldFailures_append asW st.failures [] hf (by simp)]
  rw [foldWarnings_append st.warnings _ hw]
  · simp
  · intro k hk
    simp only [List.nil_append, List.map_map]
    simpa using hdisj k hk

/-- C6: a fetched body that decodes as a compatible Status under an
answerable code produces a scoped multi-error carrying every remote
failure under its key (downgraded to a warning when `AsWarnings` is
set) and every remote warning under its key, or nil when the combined
map is empty; flattened locally under check name "remote", remote
failure "error1" becomes `failures["remote/error1"]` and warning
"warning1" becomes `warnings["remote/warning1"]`, and with `AsWarnings`
both land in the warnings map only. -/
theorem C6_remote_merge (opt : Option RemoteOptions) (sc : Nat) (body : String)
    (st : RemoteStatus)
    (hsc : (200 ≤ sc ∧ sc < 300) ∨ (500 ≤ sc ∧ sc < 600))
    (hcompat : ¬ sc < 300 → st.failures ≠ [])
    (hf : (st.failures.map Prod.fst).Nodup)
    (hw : (st.warnings.map Prod.fst).Nodup)
    (hdisj : ∀ k ∈ st.warnings.map Prod.fst, k ∉ st.failures.map Prod.fst) :
    remoteCheckFn opt (.response sc body (some st))
      = (if st.failures = [] ∧ st.warnings = [] then none
         else some (.scopedErr
            (st.failures.map (fun kv => (kv.1,
               some (if optAsWarnings opt then GoErr.warning kv.2 else GoErr.basic kv.2)))
             ++ st.warnings.map (fun kv => (kv.1, some (GoErr.warning kv.2)))))) ∧
    mapError "remote" (remoteCheckFn none (.response 200 ""
        (some (RemoteStatus.mk [("error1", "error1 value")] [("warning1", "warning1 value")]))))
        [] []
      = some ([("remote/error1", "error1 value")], [("remote/warning1", "warning1 value")]) ∧
    mapError "remote" (remoteCheckFn (some (RemoteOptions.mk true false)) (.response 200 ""
        (some (RemoteStatus.mk [("error1", "error1 value")] [("warning1", "warning1 value")]))))
        [] []
      = some ([], [("remote/error1", "error1 value"), ("remote/warning1", "warning1 value")]) := by
  refine ⟨?_, ?_, ?_⟩
  · simp only [remoteCheckFn]
    rw [if_neg (by omega)]
    rw [if_neg (fun hc => hcompat hc.1 (List.length_eq_zero.mp hc.2))]
    rw [buildRemoteMulti_eq (optAsWarnings opt) st hf hw hdisj]
    by_cases hemp : st.failures = [] ∧ st.warnings = []
    · rw [if_pos hemp, if_pos (by simp [hemp.1, hemp.2])]
    · rw [if_neg hemp, if_neg]
      simp only [List.length_eq_zero, List.append_eq_nil, List.map_eq_nil_iff]
      exact hemp
  · simp [remoteCheckFn, buildRemoteMulti, goInsertErr, optAsWarnings, mapError,
      mapErrorList, IsWarning, errError, goInsert]
  · simp [remoteCheckFn, buildRemoteMulti, goInsertErr, optAsWarnings, mapError,
      mapErrorList, IsWarning, errError, goInsert]

/-- Witness for C6 at the claim's concrete remote body. -/
theorem C6_remote_merge_witness :
    remoteCheckFn none (.response 200 ""
        (some (RemoteStatus.mk [("error1", "error1 value")] [("warning1", "warning1 value")])))
      = (if ([("error1", "error1 value")] : GoMap) = []
            ∧ ([("warning1", "warning1 value")] : GoMap) = [] then none
         else some (.scopedErr
            (([("error1", "error1 value")] : GoMap).map (fun kv => (kv.1,
               some (if optAsWarnings none then GoErr.warning kv.2 else GoErr.basic kv.2)))
             ++ ([("warning1", "warning1 value")] : GoMap).map
                (fun kv => (kv.1, some (GoErr.warning kv.2)))))) :=
  (C6_remote_merge none 200 ""
    (RemoteStatus.mk [("error1", "error1 value")] [("warning1", "warning1 value")])
    (by omega) (fun h => (h (by omega)).elim) (by simp) (by simp) (by decide)).1

/-- C7 counterexample: with `AsWarnings` set, a transport-level error is
still returned verbatim by the evaluation function (`return err` in
remote.go) and is classified as a failure, not the warning the claim
promises. -/
theorem C7_counterexample :
    remoteCheckFn (some { asWarnings := true, warn404 := false })
      (.transportError "connection refused")
      = some (.basic "connection refused") ∧
    IsWarning (some (.basic "connection refused")) = false :=
  ⟨rfl, rfl⟩

/-- C7 amended: a transport-level error during a remote check's HTTP
fetch makes the evaluation function return the transport error
verbatim, which is classified as a failure carrying the transport error
text — regardless of the `AsWarnings` option. -/
theorem C7_transport_amended (opt : Option RemoteOptions) (msg : String) :
    remoteCheckFn opt (.transportError msg) = some (.basic msg) ∧
    IsWarning (some (.basic msg)) = false ∧
    errError (.basic msg) = msg :=
  ⟨rfl, rfl, rfl⟩

/-- Closing a check does not change its stored error. -/
theorem closeCheck_err (c : Check) : (closeCheck c).err = c.err := by
  unfold closeCheck; split <;> rfl

/-- After a close, a stop signal is queued. -/
theorem closeCheck_stopPending (c : Check) : (closeCheck c).stopPending = true := by
  unfold closeCheck; split <;> simp_all

/-- Closing an already-signalled check is a no-op (the `default` branch
of the select). -/
theorem closeCheck_fixed (c : Check) (h : c.stopPending = true) : closeCheck c = c := by
  unfold closeCheck; simp [h]

/-- Iterated closes of an already-signalled check are a no-op. -/
theorem closeIter_fixed (n : Nat) (c : Check) (h : c.stopPending = true) :
    closeIter n c = c := by
  induction n with
  | zero => rfl
  | succ n ih => rw [closeIter, closeCheck_fixed c h, ih]

/-- C8: stopping a check entry is idempotent and non-blocking — the
translation of `check.Close` is a total function (the non-blocking
select), repeating it any number of times equals doing it once, and the
entry's stored result is unchanged. -/
theorem C8_close_idempotent (c : Check) (n : Nat) :
    (closeIter n c).err = c.err ∧
    closeCheck (closeCheck c) = closeCheck c ∧
    (1 ≤ n → closeIter n c = closeCheck c) := by
  refine ⟨?_, closeCheck_fixed _ (closeCheck_stopPending c), ?_⟩
  · induction n generalizing c with
    | zero => rfl
    | succ n ih => rw [closeIter, ih (closeCheck c), closeCheck_err]
  · intro hn
    match n, hn with
    | n + 1, _ => rw [closeIter, closeIter_fixed n _ (closeCheck_stopPending c)]

/-- Witness for C8: closing a fresh periodic entry twice. -/
theorem C8_close_idempotent_witness :
    (closeIter 2 (Check.mk false 1000000000 0 none (some (.basic "pending")) false)).err
      = (Check.mk false 1000000000 0 none (some (.basic "pending")) false).err ∧
    closeCheck (closeCheck (Check.mk false 1000000000 0 none (some (.basic "pending")) false))
      = closeCheck (Check.mk false 1000000000 0 none (some (.basic "pending")) false) ∧
    closeIter 2 (Check.mk false 1000000000 0 none (some (.basic "pending")) false)
      = closeCheck (Check.mk false 1000000000 0 none (some (.basic "pending")) false) := by
  have h := C8_close_idempotent
    (Check.mk false 1000000000 0 none (some (.basic "pending")) false) 2
  exact ⟨h.1, h.2.1, h.2.2 (by decide)⟩

/-- C4: a static check created by `Set(name, err, d)` with `d > 0` and
never replaced reports `err` unchanged while less than `d` has elapsed
(and `Status()` shows its original message under the check name), and
once `d` has elapsed reports the `Expired{d}` failure whose message is
"status expired after <d>"; with `d == 0` the stored value never
changes, regardless of elapsed time. -/
theorem C4_static_expiry (expiry elapsed : Nat) (err0 : Option GoErr) (name msg : String) :
    staticErrAt 0 err0 elapsed = err0 ∧
    (0 < expiry → elapsed < expiry →
      staticErrAt expiry err0 elapsed = err0 ∧
      checkerStatus [(name, staticErrAt expiry (some (.basic msg)) elapsed)]
        = some (Status.mk false false StatusUnavailable [(name, msg)] [])) ∧
    (0 < expiry → expiry ≤ elapsed →
      staticErrAt expiry err0 elapsed = some (.expired expiry) ∧
      errError (.expired expiry) = "status expired after " ++ fmtDuration expiry ∧
      checkerStatus [(name, staticErrAt expiry err0 elapsed)]
        = some (Status.mk false false StatusUnavailable
            [(name, "status expired after " ++ fmtDuration expiry)] [])) := by
  refine ⟨by simp [staticErrAt], fun h1 h2 => ?_, fun h1 h2 => ?_⟩
  · have hs : ∀ e0, staticErrAt expiry e0 elapsed = e0 := fun e0 => by
      rw [staticErrAt, if_neg (by omega), if_pos h2]
    refine ⟨hs err0, ?_⟩
    rw [hs]
    simp [checkerStatus, statusFold, mapError, IsWarning, errError, goInsert,
      StatusUnavailable]
  · have hs : staticErrAt expiry err0 elapsed = some (.expired expiry) := by
      rw [staticErrAt, if_neg (by omega), if_neg (by omega)]
    refine ⟨hs, by simp [errError], ?_⟩
    rw [hs]
    simp [checkerStatus, statusFold, mapError, IsWarning, errError, goInsert,
      StatusUnavailable]

/-- Witness for C4 with a 200ms expiry, queried at 100ms and at 300ms. -/
theorem C4_static_expiry_witness :
    staticErrAt 200000000 (some (.basic "static error")) 100000000
      = some (.basic "static error") ∧
    checkerStatus [("static", staticErrAt 200000000 (some (.basic "static error")) 100000000)]
      = some (Status.mk false false StatusUnavailable [("static", "static error")] []) ∧
    staticErrAt 200000000 (some (.basic "static error")) 300000000
      = some (.expired 200000000) ∧
    checkerStatus [("static", staticErrAt 200000000 (some (.basic "static error")) 300000000)]
      = some (Status.mk false false StatusUnavailable
          [("static", "status expired after " ++ fmtDuration 200000000)] []) ∧
    fmtDuration 200000000 = "200ms" := by
  have hmid := (C4_static_expiry 200000000 100000000 (some (.basic "static error"))
    "static" "static error").2.1 (by omega) (by omega)
  have hexp := (C4_static_expiry 200000000 300000000 (some (.basic "static error"))
    "static" "static error").2.2 (by omega) (by omega)
  exact ⟨hmid.1, hmid.2, hexp.1, hexp.2.2, by rfl⟩

/-- C9: `Checker.Register` panics exactly when the check function is
nil, the panic happens before the lock is taken or anything is mutated
(the `.error` carries the checker state at the panic, equal to the
input state, registry and metadata included), and a non-nil function
never panics and stores the new periodic entry (zero period replaced by
the one-second default). -/
theorem C9_register_nil_panics (c : CheckerState) (name : String) (period : Nat)
    (fn : Option CheckFunc) :
    register c name period none = .error ("nil CheckFunc", c) ∧
    ((∃ e, register c name period fn = .error e) ↔ fn = none) ∧
    (∀ f, register c name period (some f)
        = .ok { c with checks := (goUpdateCheck c.checks name
            (newPeriodicCheck (if period = 0 then DefaultCheckPeriod else period) f)) }) := by
  refine ⟨rfl, ⟨?_, ?_⟩, fun f => rfl⟩
  · rintro ⟨e, he⟩
    cases fn with
    | none => rfl
    | some f => simp [register] at he
  · rintro rfl
    exact ⟨_, rfl⟩

/-- C10: a check whose current result is an empty scoped multi-error
contributes nothing to either map, and as the only registered check
yields `OK = true` with label "OK" although its stored error is
non-nil. -/
theorem C10_empty_scoped (name : String) (failures warnings : GoMap) :
    mapError name (some (.scopedErr [])) failures warnings = some (failures, warnings) ∧
    checkerStatus [(name, some (.scopedErr []))]
      = some (Status.mk true false StatusOK [] []) ∧
    some (GoErr.scopedErr []) ≠ (none : Option GoErr) := by
  refine ⟨?_, ?_, by simp⟩
  · simp [mapError, mapErrorList]
  · simp [checkerStatus, statusFold, mapError, mapErrorList, StatusOK]

end Healthz
